import Mathlib

/-!
Shallow embedding of the LTN-Analysis census data pipeline
(`src/config/censusConfig.ts`, `src/services/censusApi.ts`,
`src/services/geojsonService.ts`, `src/hooks/useCensusData.ts`).

Modelling conventions:
* JavaScript numbers are modelled as rationals (`ℚ`); the claims under
  verification only exercise control flow and exact small-magnitude
  arithmetic, where IEEE doubles and rationals agree.
* JavaScript `undefined` is `Option.none`; a JS value that may be a string,
  a number or `undefined` is the inductive `JsVal`.
* JS falsiness of a number is `= 0`, of a string is `= ""`,
  and `undefined` is falsy.
-/

/- ===== Derived-metric calculator (censusConfig.ts, CENSUS_CONFIG.DERIVED_METRICS)
   and transformTractData (censusApi.ts lines 205-278) ===== -/

/-- The transformed per-tract numeric values: `transformed[key]` after the raw
variables are copied through the sentinel filter in `transformTractData`.
A field holds `none` exactly when the JS property is `undefined`. -/
structure TransformedRecord where
  totalPopulation : Option ℚ := none
  totalHousingUnits : Option ℚ := none
  noCarHouseholds : Option ℚ := none
  noCarHouseholdsRenter : Option ℚ := none
  publicTransitCommuters : Option ℚ := none
  totalCommuters : Option ℚ := none
  populationUnder18 : Option ℚ := none
  populationUnder18Female : Option ℚ := none
  population65Plus : Option ℚ := none
  population65PlusFemale : Option ℚ := none
  disabledPopulation : Option ℚ := none
deriving DecidableEq

/-- JS `parseInt(String(q))` on a finite number: truncation toward zero. -/
def jsTrunc (q : ℚ) : ℤ := if 0 ≤ q then ⌊q⌋ else ⌈q⌉

/-- JS `parseInt(data.x || '0')` where `data.x` is a number or `undefined`:
`undefined` and the falsy number `0` give `parseInt('0') = 0`;
any other number is truncated. -/
def orZeroInt (v : Option ℚ) : ℤ :=
  match v with
  | none => 0
  | some q => if q = 0 then 0 else jsTrunc q

/-- JS `parseInt(data.x || '1')`: `undefined` and the falsy number `0` give
`parseInt('1') = 1`; any other number is truncated. -/
def orOneInt (v : Option ℚ) : ℤ :=
  match v with
  | none => 1
  | some q => if q = 0 then 1 else jsTrunc q

/-- JS `x.toFixed(1)`, read back as the numeric value it displays:
rounding to one decimal place. -/
def toFixed1 (q : ℚ) : ℚ := (round (q * 10) : ℚ) / 10

/-- `CENSUS_CONFIG.DERIVED_METRICS.carFreePercent.formula` (censusConfig.ts
lines 87-94):
`noCar = parseInt(data.noCarHouseholds || '0') + parseInt(data.noCarHouseholdsRenter || '0')`,
`total = parseInt(data.totalHousingUnits || '1')`,
`return total > 0 ? ((noCar / total) * 100).toFixed(1) : '0'`.
The source returns a string in every branch; we model the numeric value of
that string, reserving `none` for an absent ("metric unavailable") result —
which the source never produces. The `'0'` branch is modelled as `some 0`. -/
def carFreePercent (data : TransformedRecord) : Option ℚ :=
  let noCar : ℤ := orZeroInt data.noCarHouseholds + orZeroInt data.noCarHouseholdsRenter
  let total : ℤ := orOneInt data.totalHousingUnits
  if 0 < total then some (toFixed1 ((noCar : ℚ) / (total : ℚ) * 100)) else some 0

/-- `isValidCensusValue` (censusApi.ts lines 216-223) on an already-numeric or
undefined value: `null`/`undefined`/`''`/NaN are invalid (`none` here), and
`numValue < 0 && (numValue <= -666666666 || numValue <= -999999999)` is the
Census sentinel test. -/
def isValidCensusValue (value : Option ℚ) : Bool :=
  match value with
  | none => false
  | some numValue =>
    if numValue < 0 ∧ (numValue ≤ -666666666 ∨ numValue ≤ -999999999) then false else true

/-- One raw-variable copy step of `transformTractData` (censusApi.ts lines
226-234): `rawData[varCode] !== undefined && isValidCensusValue(rawData[varCode])`
keeps the value, anything else becomes `undefined`. -/
def transformField (raw : Option ℚ) : Option ℚ :=
  if raw.isSome && isValidCensusValue raw then raw else none

/-- The raw variable values of one tract, as read from the parsed API
response (`rawData[varCode]`); `none` is an undefined property. -/
structure RawTractVals where
  totalPopulation : Option ℚ := none
  totalHousingUnits : Option ℚ := none
  noCarHouseholds : Option ℚ := none
  noCarHouseholdsRenter : Option ℚ := none
  publicTransitCommuters : Option ℚ := none
  totalCommuters : Option ℚ := none
  populationUnder18 : Option ℚ := none
  populationUnder18Female : Option ℚ := none
  population65Plus : Option ℚ := none
  population65PlusFemale : Option ℚ := none
  disabledPopulation : Option ℚ := none
deriving DecidableEq

/-- The raw-variable portion of `transformTractData` (censusApi.ts lines
226-234): every configured variable is copied through the sentinel filter. -/
def transformTractData (rawData : RawTractVals) : TransformedRecord where
  totalPopulation := transformField rawData.totalPopulation
  totalHousingUnits := transformField rawData.totalHousingUnits
  noCarHouseholds := transformField rawData.noCarHouseholds
  noCarHouseholdsRenter := transformField rawData.noCarHouseholdsRenter
  publicTransitCommuters := transformField rawData.publicTransitCommuters
  totalCommuters := transformField rawData.totalCommuters
  populationUnder18 := transformField rawData.populationUnder18
  populationUnder18Female := transformField rawData.populationUnder18Female
  population65Plus := transformField rawData.population65Plus
  population65PlusFemale := transformField rawData.population65PlusFemale
  disabledPopulation := transformField rawData.disabledPopulation

/-- A record with zero total housing units and 100 owner-occupied
car-free households. -/
def zeroUnitsRecord : TransformedRecord :=
  { totalHousingUnits := some 0, noCarHouseholds := some 100 }

/-- A raw record whose `noCarHouseholds` is the Census sentinel value
−666666666 while the other car-metric components are present. -/
def sentinelRaw : RawTractVals :=
  { noCarHouseholds := some (-666666666), noCarHouseholdsRenter := some 50,
    totalHousingUnits := some 1000 }

/- ===== Statistics parser (censusApi.ts, parseCensusResponse, lines 72-107) ===== -/

/-- A JavaScript value stored in a parsed-tract property bag:
a string, a number, or `undefined`. -/
inductive JsVal where
  | str (s : String)
  | num (q : ℚ)
  | undefinedVal
deriving DecidableEq

/-- Numeric value of a decimal digit character. -/
def digitVal (c : Char) : ℕ := c.toNat - '0'.toNat

/-- Value of a non-empty digit string read as a natural number. -/
def digitsVal (cs : List Char) : ℕ := cs.foldl (fun acc c => 10 * acc + digitVal c) 0

/-- Modelled from the JS builtin `Number(s)` restricted to the unsigned
decimal strings the Census API emits: digits with an optional fractional
part. `none` models NaN. -/
def jsNumberUnsigned (cs : List Char) : Option ℚ :=
  let intPart := cs.takeWhile (fun c => c ≠ '.')
  match cs.dropWhile (fun c => c ≠ '.') with
  | [] => if !intPart.isEmpty && intPart.all Char.isDigit then some (digitsVal intPart) else none
  | _ :: frac =>
    if intPart.all Char.isDigit && frac.all Char.isDigit && !(intPart.isEmpty && frac.isEmpty) then
      some ((digitsVal intPart : ℚ) + (digitsVal frac : ℚ) / (10 : ℚ) ^ frac.length)
    else none

/-- Modelled from the JS builtin `Number(s)`: optional leading minus sign,
then an unsigned decimal; the empty string is `0`; `none` models NaN. -/
def jsNumber (s : String) : Option ℚ :=
  match s.data with
  | [] => some 0
  | '-' :: rest => (jsNumberUnsigned rest).map (fun q => -q)
  | cs => jsNumberUnsigned cs

/-- One cell conversion of `parseCensusResponse` (censusApi.ts lines 82-90):
geographic headers are kept as strings via `String(value || '')`; other
cells become numbers unless `isNaN(Number(value)) || value === ''`. -/
def parseCell (header : String) (value : Option String) : JsVal :=
  if header = "state" ∨ header = "county" ∨ header = "tract" then
    .str (value.getD "")
  else
    match value with
    | none => .undefinedVal
    | some s => if s = "" then .str s else
        match jsNumber s with
        | none => .str s
        | some q => .num q

/-- JS property assignment `obj[k] = v` on an association-list object:
replace an existing key, else append. -/
def setField (fs : List (String × JsVal)) (k : String) (v : JsVal) : List (String × JsVal) :=
  if fs.any (fun p => p.1 == k) then fs.map (fun p => if p.1 == k then (k, v) else p)
  else fs ++ [(k, v)]

/-- JS property read `obj[k]`: `undefined` when the key is missing. -/
def getField (fs : List (String × JsVal)) (k : String) : JsVal :=
  match fs.find? (fun p => p.1 == k) with
  | some p => p.2
  | none => .undefinedVal

/-- JS truthiness of a `JsVal`: `0`, `""` and `undefined` are falsy. -/
def jsTruthy : JsVal → Bool
  | .str s => !(s == "")
  | .num q => !(decide (q = 0))
  | .undefinedVal => false

/-- JS `String(v)` for the values reaching the GEOID/NAME construction in
`parseCensusResponse`; the geographic fields are always strings there, so
only the `.str` case is exercised. -/
def jsStringOf : JsVal → String
  | .str s => s
  | .num _ => ""
  | .undefinedVal => "undefined"

/-- JS `s.padStart(n, c)`. -/
def padStart (s : String) (n : ℕ) (c : Char) : String :=
  ⟨List.replicate (n - s.data.length) c ++ s.data⟩

/-- One parsed tract record: the property bag built by `parseCensusResponse`
for one data row. -/
abbrev ParsedTract := List (String × JsVal)

/-- One row conversion of `parseCensusResponse` (censusApi.ts lines 80-106):
assign every header's cell, then synthesize `GEOID` from
state + county + tract (county padded to 3, tract to 6), then synthesize
`NAME` as `Tract <tract>` when absent. -/
def parseRow (headers : List String) (row : List String) : ParsedTract :=
  let tract := headers.enum.foldl
    (fun fs p => setField fs p.2 (parseCell p.2 row[p.1]?)) []
  let tract :=
    if jsTruthy (getField tract "state") && !(getField tract "county" == JsVal.undefinedVal)
        && !(getField tract "tract" == JsVal.undefinedVal) then
      let stateStr := jsStringOf (getField tract "state")
      let countyStr := padStart (jsStringOf (if jsTruthy (getField tract "county")
        then getField tract "county" else .str "")) 3 '0'
      let tractStr := padStart (jsStringOf (if jsTruthy (getField tract "tract")
        then getField tract "tract" else .str "")) 6 '0'
      setField tract "GEOID" (.str (stateStr ++ countyStr ++ tractStr))
    else tract
  if !(jsTruthy (getField tract "NAME")) && jsTruthy (getField tract "GEOID")
      && jsTruthy (getField tract "tract") then
    setField tract "NAME" (.str ("Tract " ++ jsStringOf (getField tract "tract")))
  else tract

/-- `parseCensusResponse` (censusApi.ts lines 72-107): `null`/`undefined`
input (`none` here) or fewer than 2 rows give `[]`; otherwise the first row
is the header row and each remaining row becomes one record. -/
def parseCensusResponse (csvData : Option (List (List String))) : List ParsedTract :=
  match csvData with
  | none => []
  | some csv =>
    if csv.length < 2 then []
    else
      match csv with
      | [] => []
      | headers :: rows => rows.map (parseRow headers)

/- ===== Cache (censusApi.ts, CensusApiCache, lines 34-65) ===== -/

/-- `CensusApiCache.defaultExpiry`: one hour in milliseconds. -/
def defaultExpiry : ℤ := 60 * 60 * 1000

/-- One cache entry: `(data, timestamp, expiry)`. -/
structure CacheEntry where
  data : List ParsedTract
  timestamp : ℤ
  expiry : ℤ

/-- `CensusApiCache.set` (censusApi.ts lines 50-56): stores
`expiry: expiry || this.defaultExpiry`, so a missing or falsy (zero)
explicit expiry falls back to the one-hour default. The map is modelled as
a function from keys to optional entries; `now` is `Date.now()`. -/
def CensusApiCache.set (cache : String → Option CacheEntry) (key : String)
    (data : List ParsedTract) (expiry : Option ℤ) (now : ℤ) :
    String → Option CacheEntry :=
  fun k =>
    if k = key then
      some ⟨data, now, match expiry with
        | some e => if e = 0 then defaultExpiry else e
        | none => defaultExpiry⟩
    else cache k

/-- `CensusApiCache.get` (censusApi.ts lines 38-48): a missing key gives
`null`; an entry with `Date.now() > timestamp + expiry` is deleted and gives
`null`; otherwise the data is returned. Returns the result together with
the possibly-evicted map. -/
def CensusApiCache.get (cache : String → Option CacheEntry) (key : String)
    (now : ℤ) : Option (List ParsedTract) × (String → Option CacheEntry) :=
  match cache key with
  | none => (none, cache)
  | some entry =>
    if entry.timestamp + entry.expiry < now then
      (none, fun k => if k = key then none else cache k)
    else (some entry.data, cache)

/- ===== Per-county statistics fetch (censusApi.ts, fetchNYCTractsData,
   lines 112-152) ===== -/

/-- Outcome of one county's `fetch` in the `fetchNYCTractsData` loop:
an OK response carrying the JSON rows, a non-2xx response
(`!response.ok`), or a thrown network/parse error. -/
inductive FetchOutcome where
  | ok (rows : List (List String))
  | httpError
  | thrown
deriving DecidableEq

/-- The `for (const countyCode of countyCodes)` loop of `fetchNYCTractsData`
(censusApi.ts lines 129-142) with the surrounding try/catch: an OK response
is parsed and appended to `allTracts`, a non-2xx response is logged and
skipped via `continue`, and a thrown error propagates to the catch block,
which rethrows (modelled `.error ()`), discarding the accumulator. -/
def fetchLoop : List FetchOutcome → List ParsedTract → Except Unit (List ParsedTract)
  | [], allTracts => .ok allTracts
  | .ok rows :: rest, allTracts => fetchLoop rest (allTracts ++ parseCensusResponse (some rows))
  | .httpError :: rest, allTracts => fetchLoop rest allTracts
  | .thrown :: _, _ => .error ()

/-- `fetchNYCTractsData` on a cache miss, as a function of the sequence of
per-county fetch outcomes. -/
def fetchNYCTractsData (outcomes : List FetchOutcome) : Except Unit (List ParsedTract) :=
  fetchLoop outcomes []

/-- Specification-side characterization: the concatenated parsed records of
the counties whose fetches returned an OK response, in order. -/
def successRecords : List FetchOutcome → List ParsedTract
  | [] => []
  | .ok rows :: rest => parseCensusResponse (some rows) ++ successRecords rest
  | _ :: rest => successRecords rest

/-- A successful single-county response: a header row and one data row. -/
def okRowsEx : List (List String) :=
  [["B25044_001E", "state", "county", "tract"], ["1000", "36", "061", "000100"]]

/- ===== Geometry sanitizer (geojsonService.ts, validateAndFixGeometry /
   fixCoordinates, lines 34-84) ===== -/

/-- A target bounding box, as passed to `validateAndFixGeometry`. -/
structure Bounds where
  minLon : ℚ
  maxLon : ℚ
  minLat : ℚ
  maxLat : ℚ
deriving DecidableEq

/-- The NYC bounding box used by every caller of the sanitizer
(geojsonService.ts lines 114-119). -/
def nycBounds : Bounds := ⟨-74.5, -73.5, 40.4, 41.0⟩

/-- The axis-swap heuristic condition of `fixCoordinates`
(geojsonService.ts line 50):
`(lon > -10 && lon < 10 && lat < -70) || (Math.abs(lon) > 180 || Math.abs(lat) > 90)`. -/
def swapCond (lon lat : ℚ) : Prop :=
  (-10 < lon ∧ lon < 10 ∧ lat < -70) ∨ (180 < |lon| ∨ 90 < |lat|)

instance (lon lat : ℚ) : Decidable (swapCond lon lat) := by
  unfold swapCond; exact inferInstance

/-- The leaf-pair case of `fixCoordinates` (geojsonService.ts lines 43-59):
swap the pair when the heuristic fires, otherwise clamp each component into
the bounding box. The swapped pair is returned without clamping. -/
def fixCoordinates (bounds : Bounds) (lon lat : ℚ) : ℚ × ℚ :=
  if swapCond lon lat then (lat, lon)
  else (max bounds.minLon (min bounds.maxLon lon), max bounds.minLat (min bounds.maxLat lat))

/-- A GeoJSON geometry: a polygon (list of rings) or a multipolygon
(list of polygons), with `[lon, lat]` leaf pairs. -/
inductive Geometry where
  | polygon (coordinates : List (List (ℚ × ℚ)))
  | multiPolygon (coordinates : List (List (List (ℚ × ℚ))))
deriving DecidableEq

/-- `ring.map(coord => fixCoordinates(coord))` for one ring of leaf pairs. -/
def fixRing (bounds : Bounds) (ring : List (ℚ × ℚ)) : List (ℚ × ℚ) :=
  ring.map (fun p => fixCoordinates bounds p.1 p.2)

/-- `validateAndFixGeometry` (geojsonService.ts lines 34-84): an absent
geometry passes through unchanged; polygons and multipolygons have every
ring's pairs fixed. -/
def validateAndFixGeometry (bounds : Bounds) : Option Geometry → Option Geometry
  | none => none
  | some (.polygon rings) => some (.polygon (rings.map (fixRing bounds)))
  | some (.multiPolygon polys) =>
      some (.multiPolygon (polys.map (fun poly => poly.map (fixRing bounds))))

/- ===== Water-tract classifier (geojsonService.ts, calculatePolygonArea /
   isWaterTract, lines 125-178) ===== -/

/-- The shoelace accumulation loop of `calculatePolygonArea`
(geojsonService.ts lines 128-131): sum of
`coords[i].lon * coords[i+1].lat - coords[i+1].lon * coords[i].lat`
over consecutive pairs. -/
def shoelaceSum : List (ℚ × ℚ) → ℚ
  | p :: q :: rest => (p.1 * q.2 - q.1 * p.2) + shoelaceSum (q :: rest)
  | _ => 0

/-- `calculatePolygonArea` (geojsonService.ts lines 125-133): zero for
fewer than 3 points, else half the absolute shoelace sum. -/
def calculatePolygonArea (coords : List (ℚ × ℚ)) : ℚ :=
  if coords.length < 3 then 0 else |shoelaceSum coords| / 2

/-- JS `parseFloat('0.' + suffix)` minus the leading zero: the value of the
maximal digit prefix of `suffix` read as a decimal fraction. -/
def parseFrac : List Char → ℚ
  | [] => 0
  | c :: rest => if c.isDigit then (digitVal c : ℚ) / 10 + parseFrac rest / 10 else 0

/-- JS `s.toLowerCase()` restricted to ASCII. -/
def toLowerStr (s : String) : String := ⟨s.data.map Char.toLower⟩

/-- Whether `pat` is a prefix of `hay`, by character equality. -/
def isPrefixList : List Char → List Char → Bool
  | [], _ => true
  | _ :: _, [] => false
  | a :: as, b :: bs => a == b && isPrefixList as bs

/-- JS `hay.includes(pat)`: substring containment. -/
def containsSub : List Char → List Char → Bool
  | [], pat => pat.isEmpty
  | a :: as, pat => isPrefixList pat (a :: as) || containsSub as pat

/-- A boundary feature as seen by `isWaterTract`: the resolved identifier
(`properties.GEOID || properties.geoid || ''`), the resolved display name
(`properties.NAME || properties.ntaname || ''`), and the geometry. -/
structure GeoFeature where
  geoid : String
  name : String
  geometry : Option Geometry
deriving DecidableEq

/-- The area computed by `isWaterTract` (geojsonService.ts lines 152-162):
the shoelace area of the outer (first) ring of the polygon, or the sum of
the outer-ring areas of a multipolygon's parts; holes are not subtracted. -/
def waterAreaOf : Geometry → ℚ
  | .polygon rings => calculatePolygonArea (rings.headD [])
  | .multiPolygon polys => (polys.map (fun poly => calculatePolygonArea (poly.headD []))).sum

/-- The display-name check of `isWaterTract` (geojsonService.ts line 173):
the lowercased name contains `water`, `marine` or `ocean`. -/
def hasWaterName (lowered : String) : Bool :=
  containsSub lowered.data "water".data || containsSub lowered.data "marine".data
    || containsSub lowered.data "ocean".data

/-- `isWaterTract` (geojsonService.ts lines 142-178): when the identifier
has length at least 11 and the last three tract digits, read as the decimal
fraction `0.<suffix>`, equal 0, 0.01, 0.98 or 0.99, a computed area under
0.00001 classifies the feature as water; independently, a water-indicating
display name classifies it as water. -/
def isWaterTract (f : GeoFeature) : Bool :=
  let name := toLowerStr f.name
  let tractDecimal := parseFrac (f.geoid.data.drop 8)
  let codeMatch : Bool :=
    if 11 ≤ f.geoid.length then
      if tractDecimal = 0 ∨ tractDecimal = 1/100 ∨ tractDecimal = 98/100 ∨ tractDecimal = 99/100 then
        match f.geometry with
        | some g => if waterAreaOf g < 1/100000 then true else false
        | none => false
      else false
    else false
  codeMatch || hasWaterName name

/-- A candidate water tract with suffix fraction `0.99`, a non-water name,
and outer-ring shoelace area exactly `0.000001`. -/
def waterFeatureSmall : GeoFeature :=
  ⟨"36061000990", "Census Tract 9.90",
    some (.polygon [[(0, 0), (1/1000, 0), (0, 1/500), (0, 0)]])⟩

/-- The same candidate with outer-ring shoelace area exactly `0.01`. -/
def waterFeatureLarge : GeoFeature :=
  ⟨"36061000990", "Census Tract 9.90",
    some (.polygon [[(0, 0), (1/5, 0), (0, 1/10), (0, 0)]])⟩

/- ===== Dataset merger (useCensusData.ts, loadData, lines 52-74) ===== -/

/-- A boundary feature as consumed by the merge: its normalized identifier
and its pre-merge display name. -/
structure BoundaryFeature where
  GEOID : String
  name : String
deriving DecidableEq

/-- A transformed statistic record as produced by `transformTractData`:
identifier, display name, and a representative derived metric. -/
structure StatRecord where
  GEOID : String
  name : String
  carfree : Option ℚ
deriving DecidableEq

/-- The result of merging one boundary feature with at most one statistic
record: on a match the spread `{...feature.properties, ...matchingData}`
overwrites the identifier and name from the record and attaches it. -/
structure MergedFeature where
  GEOID : String
  name : String
  stats : Option StatRecord
deriving DecidableEq

/-- One step of the merge loop in `loadData` (useCensusData.ts lines 58-71):
`transformed.find(t => t.GEOID === geoid)` followed by the property spread
on a match, or the unchanged feature with no statistics otherwise. -/
def mergeFeature (transformed : List StatRecord) (feature : BoundaryFeature) : MergedFeature :=
  match transformed.find? (fun t => t.GEOID == feature.GEOID) with
  | some t => ⟨t.GEOID, t.name, some t⟩
  | none => ⟨feature.GEOID, feature.name, none⟩

/-- The merge of `loadData` (useCensusData.ts lines 58-71):
`geoJson.features.map(feature => ...)` over the boundary features. -/
def mergeFeatures (features : List BoundaryFeature) (transformed : List StatRecord) :
    List MergedFeature :=
  features.map (mergeFeature transformed)

/-- A boundary feature with no matching statistic record in the examples. -/
def boundaryEx : BoundaryFeature := ⟨"36061000100", "Tract 1"⟩

/-- A first statistic record with identifier `36061000100`. -/
def statRecA : StatRecord := ⟨"36061000100", "Record A", none⟩

/-- A second, distinct statistic record with the same identifier. -/
def statRecB : StatRecord := ⟨"36061000100", "Record B", none⟩

/-- A statistic record with a different identifier, preceding the
duplicates in the first-match-wins witness. -/
def statRecOther : StatRecord := ⟨"36047000200", "Record C", none⟩

/- ===== Shared helper lemmas ===== -/

/-- The fetch loop aborts with an error as soon as any outcome in the list
is a thrown error, for every accumulator. -/
theorem fetchLoop_thrown (os : List FetchOutcome) (acc : List ParsedTract)
    (h : FetchOutcome.thrown ∈ os) : fetchLoop os acc = .error () := by
  induction os generalizing acc with
  | nil => simp at h
  | cons o rest ih =>
    cases o with
    | ok rows =>
      rw [List.mem_cons] at h
      rcases h with h | h
      · exact absurd h (by simp)
      · simpa [fetchLoop] using ih (acc ++ parseCensusResponse (some rows)) h
    | httpError =>
      rw [List.mem_cons] at h
      rcases h with h | h
      · exact absurd h (by simp)
      · simpa [fetchLoop] using ih acc h
    | thrown => simp [fetchLoop]

/-- Without a thrown error the fetch loop returns the accumulator extended
with the parsed records of every OK outcome. -/
theorem fetchLoop_no_thrown (os : List FetchOutcome) (acc : List ParsedTract)
    (h : FetchOutcome.thrown ∉ os) : fetchLoop os acc = .ok (acc ++ successRecords os) := by
  induction os generalizing acc with
  | nil => simp [fetchLoop, successRecords]
  | cons o rest ih =>
    cases o with
    | ok rows =>
      rw [fetchLoop, ih (acc ++ parseCensusResponse (some rows))
        (fun hm => h (List.mem_cons_of_mem _ hm))]
      simp [successRecords, List.append_assoc]
    | httpError =>
      rw [fetchLoop, ih acc (fun hm => h (List.mem_cons_of_mem _ hm))]
      simp [successRecords]
    | thrown => exact absurd (List.mem_cons_self _ _) h

/- ===== Claim theorems ===== -/

/-- C1, counterexample: the record with `totalHousingUnits = 0` and 100
car-free households gets `carFreePercent = 10000` — the metric is present
(computed with the substituted denominator 1), not absent. -/
theorem carFreePercent_zero_units_counterexample :
    zeroUnitsRecord.totalHousingUnits = some 0 ∧
    carFreePercent zeroUnitsRecord ≠ none ∧
    carFreePercent zeroUnitsRecord = some 10000 := by
  have h : carFreePercent zeroUnitsRecord = some 10000 := by
    norm_num [carFreePercent, zeroUnitsRecord, orZeroInt, orOneInt, jsTrunc, toFixed1, round_eq]
  exact ⟨rfl, by simp [h], h⟩

/-- C1, amended: on a record with `totalHousingUnits = 0`, the formula's
`|| '1'` fallback substitutes denominator 1, so `carFreePercent` is the
present value `(noCar * 100).toFixed(1)` — never the absent metric. -/
theorem carFreePercent_zero_units (d : TransformedRecord)
    (h : d.totalHousingUnits = some 0) :
    carFreePercent d =
      some (toFixed1 (((orZeroInt d.noCarHouseholds + orZeroInt d.noCarHouseholdsRenter : ℤ) : ℚ) * 100)) := by
  simp [carFreePercent, h, orOneInt]

/-- Witness for the amended C1 theorem at `zeroUnitsRecord`. -/
theorem carFreePercent_zero_units_witness :
    carFreePercent zeroUnitsRecord = some 10000 := by
  rw [carFreePercent_zero_units zeroUnitsRecord rfl]
  norm_num [zeroUnitsRecord, orZeroInt, jsTrunc, toFixed1, round_eq]

/-- C2, counterexample: a raw record whose `noCarHouseholds` is the sentinel
−666666666 is transformed to an absent field, yet `carFreePercent` is still
computed from the remaining components as `50 / 1000 * 100 = 5` — a partial
sum, not an absent metric. -/
theorem sentinel_partial_sum_counterexample :
    (transformTractData sentinelRaw).noCarHouseholds = none ∧
    carFreePercent (transformTractData sentinelRaw) = some 5 := by
  have habs : transformField (some (-666666666 : ℚ)) = none := by
    norm_num [transformField, isValidCensusValue]
  constructor
  · exact habs
  · norm_num [transformTractData, sentinelRaw, transformField, isValidCensusValue,
      carFreePercent, orZeroInt, orOneInt, jsTrunc, toFixed1, round_eq]

/-- C2, amended: every sentinel-valued raw field (−666666666, −999999999 and
any similarly large negative value) is transformed to an absent field; but a
derived metric with an absent component is not marked absent — the formula
substitutes 0 for absent numerator components (and 1 for an absent or zero
denominator) and computes the ratio from the remaining components. -/
theorem sentinel_absent_metric_partial_sum :
    (∀ q : ℚ, q ≤ -666666666 → transformField (some q) = none) ∧
    (∀ d : TransformedRecord, d.noCarHouseholds = none →
      0 < orOneInt d.totalHousingUnits →
      carFreePercent d =
        some (toFixed1 ((orZeroInt d.noCarHouseholdsRenter : ℚ) / (orOneInt d.totalHousingUnits : ℚ) * 100))) := by
  constructor
  · intro q hq
    have h0 : q < 0 := lt_of_le_of_lt hq (by norm_num)
    simp [transformField, isValidCensusValue, h0, hq]
  · intro d h hpos
    rw [carFreePercent, if_pos hpos]
    simp [h, orZeroInt]

/-- Witness for the amended C2 theorem at the sentinel value −666666666 and
at the transform of `sentinelRaw`. -/
theorem sentinel_absent_metric_partial_sum_witness :
    transformField (some (-666666666 : ℚ)) = none ∧
    carFreePercent (transformTractData sentinelRaw) = some 5 := by
  have habs : transformField (some (-666666666 : ℚ)) = none :=
    sentinel_absent_metric_partial_sum.1 (-666666666) le_rfl
  refine ⟨habs, ?_⟩
  have hnone : (transformTractData sentinelRaw).noCarHouseholds = none := habs
  have hpos : 0 < orOneInt (transformTractData sentinelRaw).totalHousingUnits := by
    norm_num [transformTractData, sentinelRaw, transformField, isValidCensusValue,
      orOneInt, jsTrunc]
  rw [sentinel_absent_metric_partial_sum.2 (transformTractData sentinelRaw) hnone hpos]
  norm_num [transformTractData, sentinelRaw, transformField, isValidCensusValue,
    orZeroInt, orOneInt, jsTrunc, toFixed1, round_eq]

/-- C9: setting a cache entry with an explicit expiry of 0 stores it with the
one-hour default expiry (`expiry || defaultExpiry`), so a get at the same
instant returns the payload, not an expired miss. -/
theorem cache_set_zero_expiry (cache : String → Option CacheEntry) (key : String)
    (data : List ParsedTract) (now : ℤ) :
    (CensusApiCache.set cache key data (some 0) now) key = some ⟨data, now, defaultExpiry⟩ ∧
    (CensusApiCache.get (CensusApiCache.set cache key data (some 0) now) key now).1 = some data := by
  have hset : (CensusApiCache.set cache key data (some 0) now) key = some ⟨data, now, defaultExpiry⟩ := by
    simp [CensusApiCache.set]
  refine ⟨hset, ?_⟩
  rw [CensusApiCache.get, hset]
  have : ¬ (now + defaultExpiry < now) := by simp only [defaultExpiry]; omega
  simp [this]

/-- C10: a `null`/`undefined` tabular input or one with fewer than 2 rows
parses to the empty record list; with at least one data row, only the rows
after the header become records. -/
theorem parseCensusResponse_short_input :
    parseCensusResponse none = [] ∧
    (∀ csv : List (List String), csv.length < 2 → parseCensusResponse (some csv) = []) ∧
    (∀ (headers r : List String) (rs : List (List String)),
      parseCensusResponse (some (headers :: r :: rs)) = (r :: rs).map (parseRow headers)) := by
  refine ⟨rfl, ?_, ?_⟩
  · intro csv h
    simp only [parseCensusResponse]
    rw [if_pos h]
  · intro headers r rs
    have hlen : ¬ ((headers :: r :: rs).length < 2) := by
      simp only [List.length_cons]
      omega
    simp only [parseCensusResponse]
    rw [if_neg hlen]

/-- Witness for C10 at a header-only response. -/
theorem parseCensusResponse_short_input_witness :
    parseCensusResponse (some [["NAME", "state", "county", "tract"]]) = [] :=
  parseCensusResponse_short_input.2.1 [["NAME", "state", "county", "tract"]] (by decide)

/-- C8, counterexample: with a first county fetched successfully (one parsed
record) and a second county's fetch throwing, `fetchNYCTractsData` rethrows
and returns no records at all — the successful county's records are
discarded instead of returned. -/
theorem fetch_thrown_discards_counterexample :
    fetchNYCTractsData [FetchOutcome.ok okRowsEx, FetchOutcome.thrown] = .error () ∧
    (parseCensusResponse (some okRowsEx)).length = 1 := by
  constructor
  · rfl
  · simp [parseCensusResponse, okRowsEx]

/-- C8, amended: a county whose response is non-2xx is logged and skipped and
the remaining counties' parsed records are returned; but a thrown network
error is rethrown by the catch block, aborting the whole fetch and
discarding every county's records. -/
theorem fetchNYCTractsData_partial_results :
    (∀ outcomes : List FetchOutcome, FetchOutcome.thrown ∈ outcomes →
      fetchNYCTractsData outcomes = .error ()) ∧
    (∀ outcomes : List FetchOutcome, FetchOutcome.thrown ∉ outcomes →
      fetchNYCTractsData outcomes = .ok (successRecords outcomes)) := by
  constructor
  · intro os h
    exact fetchLoop_thrown os [] h
  · intro os h
    simpa [fetchNYCTractsData] using fetchLoop_no_thrown os [] h

/-- Witness for the amended C8 theorem: a lone thrown fetch gives the error
result, and an OK county followed by a non-2xx county gives exactly the OK
county's parsed records. -/
theorem fetchNYCTractsData_partial_results_witness :
    fetchNYCTractsData [FetchOutcome.thrown] = .error () ∧
    fetchNYCTractsData [FetchOutcome.ok okRowsEx, FetchOutcome.httpError] =
      .ok (successRecords [FetchOutcome.ok okRowsEx, FetchOutcome.httpError]) := by
  constructor
  · exact fetchNYCTractsData_partial_results.1 [FetchOutcome.thrown] (by simp)
  · exact fetchNYCTractsData_partial_results.2 [FetchOutcome.ok okRowsEx, FetchOutcome.httpError] (by simp)

/-- The swap heuristic does not fire on the swapped NYC pair
`(lon, lat) = (40.71, -74.00)`: 40.71 is outside `(-10, 10)` and neither
magnitude exceeds its valid range. -/
theorem not_swapCond_nyc_pair : ¬ swapCond (40.71 : ℚ) (-74.00) := by
  intro h
  rcases h with ⟨h1, h2, h3⟩ | h | h
  · norm_num at h2
  · rw [abs_of_pos (by norm_num)] at h
    norm_num at h
  · rw [abs_of_neg (by norm_num)] at h
    norm_num at h

/-- C3: on the pair `(40.71, -74.00)` fed as `(lon, lat)` with the NYC
bounding box, `fixCoordinates` does not swap — the heuristic condition is
false there — and instead clamps both components, returning
`(-73.5, 40.4)` rather than the `(-74.00, 40.71)` the specification (and
the code's own comment about recovering swapped NYC coordinates)
prescribe. -/
theorem fixCoordinates_swapped_nyc_pair :
    fixCoordinates nycBounds 40.71 (-74.00) = (-73.5, 40.4) ∧
    validateAndFixGeometry nycBounds (some (.polygon [[(40.71, -74.00)]])) =
      some (.polygon [[((-73.5 : ℚ), (40.4 : ℚ))]]) ∧
    ((-73.5 : ℚ), (40.4 : ℚ)) ≠ ((-74.00 : ℚ), (40.71 : ℚ)) := by
  have h1 : fixCoordinates nycBounds 40.71 (-74.00) = (-73.5, 40.4) := by
    rw [fixCoordinates, if_neg not_swapCond_nyc_pair]
    norm_num [nycBounds, min_def, max_def]
  refine ⟨h1, ?_, ?_⟩
  · simp [validateAndFixGeometry, fixRing, h1]
  · intro h
    rw [Prod.ext_iff] at h
    norm_num at h

/-- C4, counterexample: the pair `(0, -74)` triggers the axis-swap heuristic
and is returned as `(-74, 0)` without clamping, so the sanitized geometry
contains a latitude of 0, far below the box's minimum latitude 40.4. -/
theorem sanitize_swapped_pair_out_of_bounds_counterexample :
    validateAndFixGeometry nycBounds (some (.polygon [[((0 : ℚ), (-74 : ℚ))]])) =
      some (.polygon [[((-74 : ℚ), (0 : ℚ))]]) ∧
    (0 : ℚ) < nycBounds.minLat := by
  have hs : swapCond (0 : ℚ) (-74) := Or.inl (by norm_num)
  constructor
  · simp [validateAndFixGeometry, fixRing, fixCoordinates, hs]
  · norm_num [nycBounds]

/-- C4, amended: every leaf pair that does not trigger the axis-swap
heuristic is clamped into the target bounding box, so all coordinates of a
sanitized geometry lie inside the box provided no pair triggers the swap;
a swapped pair is returned unclamped and may lie outside the box. -/
theorem sanitize_unswapped_pairs_clamped (bounds : Bounds) (rings : List (List (ℚ × ℚ)))
    (hlon : bounds.minLon ≤ bounds.maxLon) (hlat : bounds.minLat ≤ bounds.maxLat)
    (hswap : ∀ ring ∈ rings, ∀ p ∈ ring, ¬ swapCond p.1 p.2) :
    validateAndFixGeometry bounds (some (.polygon rings)) =
      some (.polygon (rings.map (fixRing bounds))) ∧
    ∀ ring ∈ rings.map (fixRing bounds), ∀ q ∈ ring,
      bounds.minLon ≤ q.1 ∧ q.1 ≤ bounds.maxLon ∧ bounds.minLat ≤ q.2 ∧ q.2 ≤ bounds.maxLat := by
  refine ⟨rfl, ?_⟩
  intro ring hring q hq
  rw [List.mem_map] at hring
  obtain ⟨ring0, hr0, rfl⟩ := hring
  rw [fixRing, List.mem_map] at hq
  obtain ⟨p, hp, rfl⟩ := hq
  rw [fixCoordinates, if_neg (hswap ring0 hr0 p hp)]
  exact ⟨le_max_left _ _, max_le hlon (min_le_left _ _),
    le_max_left _ _, max_le hlat (min_le_left _ _)⟩

/-- Witness for the amended C4 theorem on the single in-range NYC pair
`(-74, 40.7)`. -/
theorem sanitize_unswapped_pairs_clamped_witness :
    nycBounds.minLon ≤ (fixCoordinates nycBounds (-74) 40.7).1 ∧
    (fixCoordinates nycBounds (-74) 40.7).1 ≤ nycBounds.maxLon ∧
    nycBounds.minLat ≤ (fixCoordinates nycBounds (-74) 40.7).2 ∧
    (fixCoordinates nycBounds (-74) 40.7).2 ≤ nycBounds.maxLat := by
  have hsw : ∀ ring ∈ [[((-74 : ℚ), (40.7 : ℚ))]], ∀ p ∈ ring, ¬ swapCond p.1 p.2 := by
    intro ring hring p hp
    rw [List.mem_singleton] at hring
    subst hring
    rw [List.mem_singleton] at hp
    subst hp
    intro hsw
    rcases hsw with ⟨h1, h2, h3⟩ | h | h
    · norm_num at h1
    · rw [abs_of_neg (by norm_num)] at h
      norm_num at h
    · rw [abs_of_pos (by norm_num)] at h
      norm_num at h
  exact (sanitize_unswapped_pairs_clamped nycBounds [[((-74 : ℚ), (40.7 : ℚ))]]
      (by norm_num [nycBounds]) (by norm_num [nycBounds]) hsw).2
    (fixRing nycBounds [((-74 : ℚ), (40.7 : ℚ))]) (by simp)
    (fixCoordinates nycBounds (-74) 40.7) (by simp [fixRing])

/-- C7: a feature with a non-water display name, an identifier of length at
least 11 whose tract-suffix fraction is 0.99, and some geometry is
classified as water exactly when the computed outer-ring area is below the
0.00001 threshold: area 0.000001 gives `true`, area 0.01 gives `false`. -/
theorem isWaterTract_area_threshold (f : GeoFeature) (g : Geometry)
    (hg : f.geometry = some g)
    (hlen : 11 ≤ f.geoid.length)
    (hfrac : parseFrac (f.geoid.data.drop 8) = 99/100)
    (hname : hasWaterName (toLowerStr f.name) = false) :
    (waterAreaOf g = 1/1000000 → isWaterTract f = true) ∧
    (waterAreaOf g = 1/100 → isWaterTract f = false) := by
  have hdisj : parseFrac (f.geoid.data.drop 8) = 0 ∨ parseFrac (f.geoid.data.drop 8) = 1/100 ∨
      parseFrac (f.geoid.data.drop 8) = 98/100 ∨ parseFrac (f.geoid.data.drop 8) = 99/100 :=
    Or.inr (Or.inr (Or.inr hfrac))
  constructor
  · intro ha
    simp only [isWaterTract, hg, hname, Bool.or_false, if_pos hlen, if_pos hdisj, ha]
    rw [if_pos (by norm_num)]
  · intro ha
    simp only [isWaterTract, hg, hname, Bool.or_false, if_pos hlen, if_pos hdisj, ha]
    rw [if_neg (by norm_num)]

/-- The outer-ring area of `waterFeatureSmall`'s polygon is 0.000001. -/
theorem waterFeatureSmall_area :
    waterAreaOf (.polygon [[(0, 0), (1/1000, 0), (0, 1/500), (0, 0)]]) = 1/1000000 := by
  have hs : shoelaceSum [((0 : ℚ), (0 : ℚ)), (1/1000, 0), (0, 1/500), (0, 0)] = 1/500000 := by
    norm_num [shoelaceSum]
  simp only [waterAreaOf, List.headD]
  rw [calculatePolygonArea, if_neg (by simp), hs, abs_of_pos (by norm_num)]
  norm_num

/-- The outer-ring area of `waterFeatureLarge`'s polygon is 0.01. -/
theorem waterFeatureLarge_area :
    waterAreaOf (.polygon [[(0, 0), (1/5, 0), (0, 1/10), (0, 0)]]) = 1/100 := by
  have hs : shoelaceSum [((0 : ℚ), (0 : ℚ)), (1/5, 0), (0, 1/10), (0, 0)] = 1/50 := by
    norm_num [shoelaceSum]
  simp only [waterAreaOf, List.headD]
  rw [calculatePolygonArea, if_neg (by simp), hs, abs_of_pos (by norm_num)]
  norm_num

/-- The tract-suffix fraction of the identifier `36061000990` is 0.99. -/
theorem parseFrac_suffix_990 : parseFrac (("36061000990" : String).data.drop 8) = 99/100 := by
  have hd : (("36061000990" : String).data.drop 8) = ['9', '9', '0'] := by decide
  have h9 : ('9' : Char).isDigit = true := rfl
  have h0 : ('0' : Char).isDigit = true := rfl
  have d9 : digitVal '9' = 9 := rfl
  have d0 : digitVal '0' = 0 := rfl
  rw [hd]
  simp only [parseFrac, h9, h0, if_true, d9, d0]
  norm_num

/-- Witness for C7 at the two concrete candidate features. -/
theorem isWaterTract_area_threshold_witness :
    isWaterTract waterFeatureSmall = true ∧ isWaterTract waterFeatureLarge = false := by
  constructor
  · exact (isWaterTract_area_threshold waterFeatureSmall
      (.polygon [[(0, 0), (1/1000, 0), (0, 1/500), (0, 0)]]) rfl (by decide)
      parseFrac_suffix_990 (by decide)).1 waterFeatureSmall_area
  · exact (isWaterTract_area_threshold waterFeatureLarge
      (.polygon [[(0, 0), (1/5, 0), (0, 1/10), (0, 0)]]) rfl (by decide)
      parseFrac_suffix_990 (by decide)).2 waterFeatureLarge_area

/-- C5: the merge yields exactly one output per boundary feature, every
output identifier comes from the boundary list, and a boundary feature with
no matching statistic record is kept with its statistic fields absent. -/
theorem mergeFeatures_set_equality (features : List BoundaryFeature)
    (transformed : List StatRecord) :
    (mergeFeatures features transformed).length = features.length ∧
    (∀ g ∈ mergeFeatures features transformed,
      g.GEOID ∈ features.map BoundaryFeature.GEOID) ∧
    (∀ f ∈ features, (∀ t ∈ transformed, t.GEOID ≠ f.GEOID) →
      (⟨f.GEOID, f.name, none⟩ : MergedFeature) ∈ mergeFeatures features transformed) := by
  refine ⟨by simp [mergeFeatures], ?_, ?_⟩
  · intro g hg
    rw [mergeFeatures, List.mem_map] at hg
    obtain ⟨f, hf, rfl⟩ := hg
    rw [mergeFeature]
    cases hfind : transformed.find? (fun t => t.GEOID == f.GEOID) with
    | none => exact List.mem_map.mpr ⟨f, hf, rfl⟩
    | some t =>
      have ht : t.GEOID = f.GEOID := by
        have := List.find?_some hfind
        rwa [beq_iff_eq] at this
      exact List.mem_map.mpr ⟨f, hf, ht.symm⟩
  · intro f hf hnone
    have hfind : transformed.find? (fun t => t.GEOID == f.GEOID) = none := by
      rw [List.find?_eq_none]
      intro t ht
      simpa using hnone t ht
    refine List.mem_map.mpr ⟨f, hf, ?_⟩
    rw [mergeFeature, hfind]

/-- Witness for C5 with one boundary feature and no statistic records. -/
theorem mergeFeatures_set_equality_witness :
    (mergeFeatures [boundaryEx] []).length = 1 ∧
    (⟨boundaryEx.GEOID, boundaryEx.name, none⟩ : MergedFeature) ∈ mergeFeatures [boundaryEx] [] := by
  refine ⟨(mergeFeatures_set_equality [boundaryEx] []).1, ?_⟩
  exact (mergeFeatures_set_equality [boundaryEx] []).2.2 boundaryEx (by simp) (by simp)

/-- C6, counterexample: with two statistic records sharing the identifier of
the sole boundary feature, the merge attaches the first record of the list
(`Array.prototype.find` returns the first match), not the last. -/
theorem merge_duplicate_counterexample :
    mergeFeatures [boundaryEx] [statRecA, statRecB] =
      [⟨statRecA.GEOID, statRecA.name, some statRecA⟩] ∧
    statRecA ≠ statRecB := by
  constructor
  · simp [mergeFeatures, mergeFeature, statRecA, statRecB, boundaryEx, List.find?]
  · intro h
    rw [statRecA, statRecB, StatRecord.mk.injEq] at h
    exact absurd h.2.1 (by decide)

/-- C6, amended: the merge does not fail on duplicate identifiers — it still
produces one output per boundary feature — and the record attached is the
first matching one in list order (first-write-wins): for any statistic list
decomposed as `pre ++ t :: rest` where no record of `pre` matches the
feature's identifier and `t` does, the merge attaches `t`, regardless of
any duplicates among `rest`. -/
theorem merge_first_match_wins (features : List BoundaryFeature)
    (pre : List StatRecord) (t : StatRecord) (rest : List StatRecord)
    (f : BoundaryFeature) (hpre : ∀ s ∈ pre, s.GEOID ≠ f.GEOID)
    (h : t.GEOID = f.GEOID) :
    mergeFeature (pre ++ t :: rest) f = ⟨t.GEOID, t.name, some t⟩ ∧
    (mergeFeatures features (pre ++ t :: rest)).length = features.length := by
  have hfind : ∀ pre0 : List StatRecord, (∀ s ∈ pre0, s.GEOID ≠ f.GEOID) →
      (pre0 ++ t :: rest).find? (fun s => s.GEOID == f.GEOID) = some t := by
    intro pre0
    induction pre0 with
    | nil => exact fun _ => List.find?_cons_of_pos _ (by simp [h])
    | cons a as ih =>
      intro hp
      rw [List.cons_append,
        List.find?_cons_of_neg _ (by simp [hp a (List.mem_cons_self a as)])]
      exact ih (fun s hs => hp s (List.mem_cons_of_mem a hs))
  constructor
  · rw [mergeFeature, hfind pre hpre]
  · simp [mergeFeatures]

/-- Witness for the amended C6 theorem: a non-matching record precedes the
two duplicate-identifier records, and the first of the duplicates is the one
attached. -/
theorem merge_first_match_wins_witness :
    mergeFeature [statRecOther, statRecA, statRecB] boundaryEx =
      ⟨statRecA.GEOID, statRecA.name, some statRecA⟩ ∧
    (mergeFeatures [boundaryEx] [statRecOther, statRecA, statRecB]).length = 1 :=
  merge_first_match_wins [boundaryEx] [statRecOther] statRecA [statRecB] boundaryEx
    (by decide) rfl

/-- Witness for C9 at an empty cache, the production cache key, and time 0. -/
theorem cache_set_zero_expiry_witness :
    (CensusApiCache.get (CensusApiCache.set (fun _ => none) "nyc-tracts-2023" [] (some 0) 0)
      "nyc-tracts-2023" 0).1 = some [] :=
  (cache_set_zero_expiry (fun _ => none) "nyc-tracts-2023" [] 0).2
